import Mathlib

/-!
Verification development for the Retell synchronous call client
(src/retell_sync_client.py).  The Python program is shallowly embedded:

* A `Snapshot` models the call-response object returned by
  `sync_client.call.retrieve` (`get_call_details`).  Top-level fields that
  the SDK types as optional are `Option`s; `none` models a Python `None`
  (or an absent attribute, which the source always reads through
  `getattr(_, _, default)` so the two behave identically downstream).
* `poll_call_status` embeds the polling loop (source lines 167-186).  The
  remote service is an oracle `fetch : Nat → FetchResult` giving the result
  of each fetch attempt (0-indexed); `FetchResult.err` models
  `get_call_details` raising.  The loop is driven by a fuel argument that
  is always sufficient when the wait interval is positive, since each
  iteration adds `wait_interval ≥ 1` to `waited` and the loop requires
  `waited < max_wait_sec`.
* `extractFields` embeds the field extraction of source lines 279-283, and
  `extractStep` wraps it with the surrounding `try/except` whose failure
  (modelled by an exogenous flag, since it can only arise from dynamic
  attribute errors outside the typed model) sets every field to
  "Unavailable" (line 293).
* `download_file` embeds source lines 68-91; network and filesystem
  failures are exogenous flags, and the returned `DlResult` records the
  observable effects (warning, network attempt, file written, error log).
* `main` embeds the pipeline of source lines 256-309 given a `MainEnv` of
  oracle inputs, producing a `MainResult` of observable outcomes.
-/

/-- The `call_cost` sub-object of a call response.  The SDK always carries
both attributes on a present `call_cost` object, so they are plain fields;
monetary and duration values are modelled as rationals. -/
structure CallCost where
  total_duration_seconds : Rat
  combined_cost : Rat
deriving DecidableEq, Repr

/-- The `call_analysis` sub-object of a call response. -/
structure CallAnalysis where
  call_summary : String
deriving DecidableEq, Repr

/-- A point-in-time call response, as read by the source through
`getattr`: each top-level field is optional. -/
structure Snapshot where
  call_status : Option String
  recording_url : Option String
  public_log_url : Option String
  call_cost : Option CallCost
  call_analysis : Option CallAnalysis
deriving DecidableEq, Repr

/-- Result of one fetch attempt (`get_call_details`): a snapshot, or a
raised exception. -/
inductive FetchResult where
  | ok (s : Snapshot)
  | err
deriving DecidableEq, Repr

/-- How the polling loop exited.  `fuelOut` is an artifact of the fuel
encoding and is never produced when the wait interval is positive. -/
inductive ExitKind where
  | ended
  | timeout
  | fetchError
  | fuelOut
deriving DecidableEq, Repr

/-- Observable outcome of the polling loop: the value returned by
`poll_call_status` (the last successfully fetched snapshot, or `none`),
the number of fetch attempts issued, the number of sleeps performed, and
the way the loop exited. -/
structure PollResult where
  returned : Option Snapshot
  attempts : Nat
  sleeps : Nat
  exitKind : ExitKind
deriving DecidableEq, Repr

/-- One step of the polling loop of source lines 167-186.  `waited`,
`attempts` and `sleeps` are the accumulated loop state; `last` is the
current value of the Python variable `call_response` (unbound = `none`).
The body mirrors the source: while `waited < max_wait_sec`, fetch; on an
exception, break (returning the previous `call_response`); on success with
status "ended", return the snapshot; otherwise sleep, add the interval to
`waited`, and continue.  After a normal exit the loop returns
`call_response` if bound, else `None`. -/
def pollGo (fetch : Nat → FetchResult) (maxWait interval : Nat) :
    Nat → Nat → Nat → Nat → Option Snapshot → PollResult
  | 0, waited, attempts, sleeps, last =>
      if waited < maxWait then
        { returned := last, attempts := attempts, sleeps := sleeps,
          exitKind := ExitKind.fuelOut }
      else
        { returned := last, attempts := attempts, sleeps := sleeps,
          exitKind := ExitKind.timeout }
  | fuel + 1, waited, attempts, sleeps, last =>
      if waited < maxWait then
        match fetch attempts with
        | FetchResult.err =>
            { returned := last, attempts := attempts + 1, sleeps := sleeps,
              exitKind := ExitKind.fetchError }
        | FetchResult.ok s =>
            if s.call_status = some "ended" then
              { returned := some s, attempts := attempts + 1, sleeps := sleeps,
                exitKind := ExitKind.ended }
            else
              pollGo fetch maxWait interval fuel (waited + interval)
                (attempts + 1) (sleeps + 1) (some s)
      else
        { returned := last, attempts := attempts, sleeps := sleeps,
          exitKind := ExitKind.timeout }

/-- The polling loop `poll_call_status` (source lines 149-186).  The fuel
`max_wait_sec + 1` bounds the iteration count, which never exceeds
`max_wait_sec` when the interval is positive. -/
def poll_call_status (fetch : Nat → FetchResult)
    (max_wait_sec wait_interval : Nat) : PollResult :=
  pollGo fetch max_wait_sec wait_interval (max_wait_sec + 1) 0 0 0 none

/-- A duration or cost value derived at source lines 279-280: either a
numeric value, the "-" sentinel for a missing `call_cost` object, or the
"Unavailable" sentinel set by the `except` branch at line 293. -/
inductive CostField where
  | val (q : Rat)
  | dash
  | unavailable
deriving DecidableEq, Repr

/-- The five fields derived from a snapshot at source lines 279-283.  The
summary and the two URLs are strings in the source (real value, "-", or
"Unavailable"). -/
structure Extracted where
  duration : CostField
  cost : CostField
  summary : String
  recording_url : String
  log_url : String
deriving DecidableEq, Repr

/-- Field extraction, source lines 279-283.  Each line is
`getattr(obj, field, sentinel)`: when the containing object is `None`
(modelled `none`) the sentinel "-" results; otherwise the value of the
field on the present object results. -/
def extractFields (r : Snapshot) : Extracted :=
  { duration :=
      match r.call_cost with
      | none => CostField.dash
      | some c => CostField.val c.total_duration_seconds,
    cost :=
      match r.call_cost with
      | none => CostField.dash
      | some c => CostField.val c.combined_cost,
    summary :=
      match r.call_analysis with
      | none => "-"
      | some a => a.call_summary,
    recording_url := (r.recording_url).getD "-",
    log_url := (r.public_log_url).getD "-" }

/-- The all-"Unavailable" record assigned by the `except` branch at source
line 293. -/
def allUnavailable : Extracted :=
  { duration := CostField.unavailable, cost := CostField.unavailable,
    summary := "Unavailable", recording_url := "Unavailable",
    log_url := "Unavailable" }

/-- The extraction step with its surrounding `try/except` (source lines
277-294): if the block raises (exogenous flag), every field is replaced by
"Unavailable" together; otherwise the fields are extracted from the
snapshot. -/
def extractStep (raises : Bool) (r : Snapshot) : Extracted :=
  if raises then allUnavailable else extractFields r

/-- The invalid-URL guard of `download_file` (source line 77):
`not url or url == '-'`.  A Python `None` or missing value is `none`; the
only falsy string is the empty string. -/
def urlInvalid (url : Option String) : Bool :=
  match url with
  | none => true
  | some s => s.isEmpty || s == "-"

/-- Observable effects of one `download_file` call: whether the
invalid-URL warning was emitted, whether a network request was attempted,
whether the destination file was written, and whether a download/write
error was logged.  The function never raises. -/
structure DlResult where
  warnedInvalid : Bool
  attemptedNet : Bool
  fileWritten : Bool
  loggedError : Bool
deriving DecidableEq, Repr

/-- `download_file` (source lines 68-91).  An invalid or missing URL is a
warned no-op; otherwise a GET is attempted, and a network failure
(`requests.RequestException`) or a write failure (`IOError`) is caught and
logged, leaving no written file. -/
def download_file (url : Option String) (netFails writeFails : Bool) :
    DlResult :=
  if urlInvalid url then
    { warnedInvalid := true, attemptedNet := false, fileWritten := false,
      loggedError := false }
  else if netFails then
    { warnedInvalid := false, attemptedNet := true, fileWritten := false,
      loggedError := true }
  else if writeFails then
    { warnedInvalid := false, attemptedNet := true, fileWritten := false,
      loggedError := true }
  else
    { warnedInvalid := false, attemptedNet := true, fileWritten := true,
      loggedError := false }

/-- Python `str.strip()` with no argument: remove leading and trailing
whitespace. -/
def pyStrip (s : String) : String :=
  String.mk (((s.data.dropWhile Char.isWhitespace).reverse.dropWhile
    Char.isWhitespace).reverse)

/-- Python `str.lower()`: lowercase every character. -/
def pyLower (s : String) : String :=
  String.mk (s.data.map Char.toLower)

/-- The scrub gate: source line 233 applies `.strip().lower()` to the
`SCRUB_SENSITIVE_CALL_DATA` value, and source line 303 tests membership in
the tuple of "yes", "true" and "1". -/
def scrubFlag (raw : String) : Bool :=
  let v := pyLower (pyStrip raw)
  v == "yes" || v == "true" || v == "1"

/-- Where `main` aborted, when it did: at call initiation (source lines
256-260) or because no call response was retrieved (lines 263-265). -/
inductive AbortStage where
  | initiation
  | noCallResponse
deriving DecidableEq, Repr

/-- Oracle inputs for one run of `main`: the outcome of the create-call
request, the fetch oracle and loop parameters for polling, the exogenous
failure flags for the JSON write, the extraction block, the two downloads
and the scrub update, and the raw scrub configuration string. -/
structure MainEnv where
  createResult : Except Unit String
  fetch : Nat → FetchResult
  max_wait_time : Nat
  wait_interval : Nat
  jsonWriteFails : Bool
  extractRaises : Bool
  recNetFails : Bool
  recWriteFails : Bool
  logNetFails : Bool
  logWriteFails : Bool
  scrub_sensitive_data : String
  scrubFails : Bool

/-- Observable outcome of one run of `main`: whether and where it aborted,
how many poll attempts were issued, whether the snapshot JSON was written,
the derived fields (when extraction was reached), the two download
outcomes (when the downloads were reached), the summary value logged at
source line 300, and whether a scrub update was attempted and succeeded. -/
structure MainResult where
  aborted : Option AbortStage
  pollAttempts : Nat
  jsonWritten : Bool
  fields : Option Extracted
  recDownload : Option DlResult
  logDownload : Option DlResult
  loggedSummary : Option String
  scrubAttempted : Bool
  scrubSucceeded : Option Bool
deriving DecidableEq, Repr

/-- The pipeline of `main`, source lines 256-309 (named `mainRun` since Lean reserves `main`): create the call (failure
is fatal, lines 258-260); poll; abort if no call response was retrieved
(lines 263-265); write the snapshot JSON (failure caught, lines 267-275);
run the extraction block, which on success also issues the two downloads
(lines 277-294) and on failure sets every field to "Unavailable"; log the
summary (line 300); finally attempt the scrub update exactly when the
configured flag is one of "yes"/"true"/"1", catching its failure (lines
302-309). -/
def mainRun (env : MainEnv) : MainResult :=
  match env.createResult with
  | Except.error _ =>
      { aborted := some AbortStage.initiation, pollAttempts := 0,
        jsonWritten := false, fields := none, recDownload := none,
        logDownload := none, loggedSummary := none, scrubAttempted := false,
        scrubSucceeded := none }
  | Except.ok _call_id =>
      let pr := poll_call_status env.fetch env.max_wait_time env.wait_interval
      match pr.returned with
      | none =>
          { aborted := some AbortStage.noCallResponse,
            pollAttempts := pr.attempts, jsonWritten := false, fields := none,
            recDownload := none, logDownload := none, loggedSummary := none,
            scrubAttempted := false, scrubSucceeded := none }
      | some call_response =>
          let ex := extractStep env.extractRaises call_response
          let attempted := scrubFlag env.scrub_sensitive_data
          { aborted := none,
            pollAttempts := pr.attempts,
            jsonWritten := !env.jsonWriteFails,
            fields := some ex,
            recDownload :=
              if env.extractRaises then none
              else some (download_file (some ex.recording_url)
                env.recNetFails env.recWriteFails),
            logDownload :=
              if env.extractRaises then none
              else some (download_file (some ex.log_url)
                env.logNetFails env.logWriteFails),
            loggedSummary := some ex.summary,
            scrubAttempted := attempted,
            scrubSucceeded :=
              if attempted then
                (if env.scrubFails then some false else some true)
              else none }

/-- Concrete snapshots used by the witnesses. -/
def sampleCost : CallCost :=
  { total_duration_seconds := 42, combined_cost := 123 / 100 }

/-- A snapshot whose status is "ended", with a recording URL and cost data
but no public log URL. -/
def endedSnap : Snapshot :=
  { call_status := some "ended", recording_url := some "https://x/y.wav",
    public_log_url := none, call_cost := some sampleCost,
    call_analysis := some { call_summary := "ok" } }

/-- A snapshot whose status is "in-progress", with every optional
sub-object absent. -/
def progressSnap : Snapshot :=
  { call_status := some "in-progress", recording_url := none,
    public_log_url := none, call_cost := none, call_analysis := none }

/-- A baseline oracle environment for the witnesses: call creation
succeeds, every fetch yields `endedSnap`, and no exogenous failure flag is
set. -/
def baseEnv : MainEnv :=
  { createResult := Except.ok "abc123",
    fetch := fun _ => FetchResult.ok endedSnap,
    max_wait_time := 10, wait_interval := 2,
    jsonWriteFails := false, extractRaises := false,
    recNetFails := false, recWriteFails := false,
    logNetFails := false, logWriteFails := false,
    scrub_sensitive_data := "yes", scrubFails := false }

/-- When the waited time has reached the maximum, the loop exits by
timeout with the current state, whatever the remaining fuel. -/
lemma pollGo_stop (fetch : Nat → FetchResult) (mW iv : Nat)
    (fuel w a s : Nat) (last : Option Snapshot) (hw : ¬ w < mW) :
    pollGo fetch mW iv fuel w a s last =
      { returned := last, attempts := a, sleeps := s,
        exitKind := ExitKind.timeout } := by
  cases fuel <;> simp [pollGo, hw]

/-- A fetch failure inside the loop breaks out immediately, returning the
previously obtained snapshot. -/
lemma pollGo_step_err (fetch : Nat → FetchResult) (mW iv : Nat)
    (fuel w a s : Nat) (last : Option Snapshot)
    (hw : w < mW) (hfa : fetch a = FetchResult.err) :
    pollGo fetch mW iv (fuel + 1) w a s last =
      { returned := last, attempts := a + 1, sleeps := s,
        exitKind := ExitKind.fetchError } := by
  simp [pollGo, hw, hfa]

/-- A fetched snapshot with status "ended" is returned immediately. -/
lemma pollGo_step_ended (fetch : Nat → FetchResult) (mW iv : Nat)
    (fuel w a s : Nat) (last : Option Snapshot) (snap : Snapshot)
    (hw : w < mW) (hfa : fetch a = FetchResult.ok snap)
    (hend : snap.call_status = some "ended") :
    pollGo fetch mW iv (fuel + 1) w a s last =
      { returned := some snap, attempts := a + 1, sleeps := s,
        exitKind := ExitKind.ended } := by
  simp [pollGo, hw, hfa, hend]

/-- A fetched snapshot whose status is not "ended" leads to a sleep and
the next iteration, with the snapshot retained. -/
lemma pollGo_step_cont (fetch : Nat → FetchResult) (mW iv : Nat)
    (fuel w a s : Nat) (last : Option Snapshot) (snap : Snapshot)
    (hw : w < mW) (hfa : fetch a = FetchResult.ok snap)
    (hend : ¬ snap.call_status = some "ended") :
    pollGo fetch mW iv (fuel + 1) w a s last =
      pollGo fetch mW iv fuel (w + iv) (a + 1) (s + 1) (some snap) := by
  simp [pollGo, hw, hfa, hend]

/-- If the loop state reaches fetch attempt `i` (0-indexed) and that fetch
yields a snapshot with status "ended", the loop returns that snapshot
there, having issued exactly `i + 1` attempts and slept once per earlier
continuing iteration. -/
lemma pollGo_ended_at (fetch : Nat → FetchResult) (mW iv : Nat)
    (snap : Snapshot) (hsnap : snap.call_status = some "ended") :
    ∀ fuel w a s last i, a ≤ i → fetch i = FetchResult.ok snap →
      i < (pollGo fetch mW iv fuel w a s last).attempts →
      pollGo fetch mW iv fuel w a s last =
        { returned := some snap, attempts := i + 1, sleeps := s + (i - a),
          exitKind := ExitKind.ended } := by
  intro fuel
  induction fuel with
  | zero =>
      intro w a s last i hai _hf hreach
      simp only [pollGo] at hreach ⊢
      split at hreach <;> simp at hreach <;> omega
  | succ fuel ih =>
      intro w a s last i hai hf hreach
      by_cases hw : w < mW
      · cases hfa : fetch a with
        | err =>
            rw [pollGo_step_err fetch mW iv fuel w a s last hw hfa] at hreach
            simp at hreach
            have hia : i = a := by omega
            subst hia
            rw [hf] at hfa
            exact absurd hfa (by simp)
        | ok snap2 =>
            by_cases hend : snap2.call_status = some "ended"
            · rw [pollGo_step_ended fetch mW iv fuel w a s last snap2 hw hfa
                hend] at hreach ⊢
              simp at hreach
              have hia : i = a := by omega
              subst hia
              rw [hf] at hfa
              cases hfa
              simp
            · rw [pollGo_step_cont fetch mW iv fuel w a s last snap2 hw hfa
                hend] at hreach ⊢
              have hlt : a < i := by
                rcases Nat.lt_or_ge a i with h | h
                · exact h
                · exfalso
                  have hia : i = a := by omega
                  subst hia
                  rw [hf] at hfa
                  cases hfa
                  exact hend hsnap
              rw [ih (w + iv) (a + 1) (s + 1) (some snap2) i (by omega) hf
                hreach]
              have harith : s + 1 + (i - (a + 1)) = s + (i - a) := by omega
              rw [harith]
      · rw [pollGo_stop fetch mW iv (fuel + 1) w a s last hw] at hreach
        simp at hreach
        omega

/-- C1: if the snapshot retrieved on poll attempt k (fetch index
i = k - 1) has call status "ended", `poll_call_status` returns that
snapshot at attempt k, issues no attempt k + 1, and performs no sleep
after attempt k (exactly i = k - 1 sleeps in total). -/
theorem poll_stops_on_ended (fetch : Nat → FetchResult)
    (mW iv i : Nat) (snap : Snapshot)
    (hiv : 0 < iv)
    (hsnap : snap.call_status = some "ended")
    (hfetch : fetch i = FetchResult.ok snap)
    (hreach : i < (poll_call_status fetch mW iv).attempts) :
    poll_call_status fetch mW iv =
      { returned := some snap, attempts := i + 1, sleeps := i,
        exitKind := ExitKind.ended } := by
  have hiv2 : 0 < iv := hiv
  have h := pollGo_ended_at fetch mW iv snap hsnap (mW + 1) 0 0 0 none i
    (Nat.zero_le i) hfetch hreach
  simpa [poll_call_status] using h

/-- Witness for C1 at a concrete input: every fetch returns `endedSnap`,
so the loop returns it on the first attempt with no sleep. -/
theorem poll_stops_on_ended_witness :
    0 < 2 ∧
    poll_call_status (fun _ => FetchResult.ok endedSnap) 10 2 =
      { returned := some endedSnap, attempts := 1, sleeps := 0,
        exitKind := ExitKind.ended } :=
  ⟨by decide,
    poll_stops_on_ended (fun _ => FetchResult.ok endedSnap) 10 2 0 endedSnap
      (by decide) rfl rfl (by decide)⟩

/-- When every fetch succeeds and no snapshot is ever "ended", the loop
runs for exactly as many iterations as the waited-time guard allows and
then exits by timeout, retaining the snapshot of the last iteration.  `n`
is the iteration count, characterised by the waited-time guard holding
before each of the `n` iterations and failing after them. -/
lemma pollGo_notEnded_run (snaps : Nat → Snapshot) (mW iv : Nat)
    (hne : ∀ i, (snaps i).call_status ≠ some "ended") :
    ∀ n fuel w a s (last : Option Snapshot), n ≤ fuel →
      (∀ j, j < n → w + j * iv < mW) → ¬ (w + n * iv < mW) →
      pollGo (fun i => FetchResult.ok (snaps i)) mW iv fuel w a s last =
        { returned := if n = 0 then last else some (snaps (a + n - 1)),
          attempts := a + n, sleeps := s + n,
          exitKind := ExitKind.timeout } := by
  intro n
  induction n with
  | zero =>
      intro fuel w a s last _hfuel _hlt hstop
      simp only [Nat.zero_mul, Nat.add_zero] at hstop
      rw [pollGo_stop _ mW iv fuel w a s last hstop]
      simp
  | succ m ih =>
      intro fuel w a s last hfuel hlt hstop
      have hw : w < mW := by
        have := hlt 0 (Nat.succ_pos m)
        simpa using this
      obtain ⟨fuel2, rfl⟩ : ∃ k, fuel = k + 1 :=
        ⟨fuel - 1, by omega⟩
      rw [pollGo_step_cont _ mW iv fuel2 w a s last (snaps a) hw rfl
        (hne a)]
      have hlt2 : ∀ j, j < m → (w + iv) + j * iv < mW := by
        intro j hj
        have := hlt (j + 1) (by omega)
        rw [Nat.succ_mul] at this
        omega
      have hstop2 : ¬ ((w + iv) + m * iv < mW) := by
        rw [Nat.succ_mul] at hstop
        omega
      rw [ih fuel2 (w + iv) (a + 1) (s + 1) (some (snaps a)) (by omega)
        hlt2 hstop2]
      rcases Nat.eq_zero_or_pos m with hm | hm
      · subst hm
        simp
      · have h1 : a + 1 + m - 1 = a + (m + 1) - 1 := by omega
        have h2 : a + 1 + m = a + (m + 1) := by omega
        have h3 : s + 1 + m = s + (m + 1) := by omega
        simp only [if_neg (by omega : ¬ m = 0),
          if_neg (by omega : ¬ m + 1 = 0), h1, h2, h3]

/-- C2: with `max_wait_sec = 180`, `wait_interval = 6`, every poll
succeeding and no snapshot ever "ended", the loop performs exactly 30 poll
attempts, exits by timeout, and returns the snapshot obtained on attempt
30 (fetch index 29). -/
theorem poll_timeout_thirty (snaps : Nat → Snapshot)
    (hne : ∀ i, (snaps i).call_status ≠ some "ended") :
    poll_call_status (fun i => FetchResult.ok (snaps i)) 180 6 =
      { returned := some (snaps 29), attempts := 30, sleeps := 30,
        exitKind := ExitKind.timeout } := by
  have h := pollGo_notEnded_run snaps 180 6 hne 30 181 0 0 0 none
    (by omega) (by intro j hj; omega) (by omega)
  simpa [poll_call_status] using h

/-- Witness for C2 at a concrete input: every fetch returns
`progressSnap`, whose status is "in-progress". -/
theorem poll_timeout_thirty_witness :
    poll_call_status (fun _ => FetchResult.ok progressSnap) 180 6 =
      { returned := some progressSnap, attempts := 30, sleeps := 30,
        exitKind := ExitKind.timeout } :=
  poll_timeout_thirty (fun _ => progressSnap)
    (by
      intro i
      show progressSnap.call_status ≠ some "ended"
      decide)

/-- Environment for the C3 witness: the first fetch yields the
in-progress snapshot and every later fetch raises. -/
def envC3 : MainEnv :=
  { baseEnv with
    fetch := fun j => if j = 0 then FetchResult.ok progressSnap
      else FetchResult.err }

/-- When the first `n` fetches succeed with snapshots that are never
"ended" and fetch `n` raises, the loop breaks at that fetch: it issues
exactly `n + 1` attempts and returns the snapshot obtained just before the
failure (none when the very first fetch fails). -/
lemma pollGo_err_run (snaps : Nat → Snapshot) (fetch : Nat → FetchResult)
    (mW iv : Nat) :
    ∀ n fuel w a s (last : Option Snapshot), n < fuel →
      (∀ j, j < n → fetch (a + j) = FetchResult.ok (snaps (a + j)) ∧
        (snaps (a + j)).call_status ≠ some "ended") →
      fetch (a + n) = FetchResult.err →
      (∀ j, j ≤ n → w + j * iv < mW) →
      pollGo fetch mW iv fuel w a s last =
        { returned := if n = 0 then last else some (snaps (a + n - 1)),
          attempts := a + n + 1, sleeps := s + n,
          exitKind := ExitKind.fetchError } := by
  intro n
  induction n with
  | zero =>
      intro fuel w a s last hfuel _hok herr hwait
      have hw : w < mW := by
        have := hwait 0 (Nat.le_refl 0)
        simpa using this
      obtain ⟨fuel2, rfl⟩ : ∃ k, fuel = k + 1 := ⟨fuel - 1, by omega⟩
      have herr0 : fetch a = FetchResult.err := by simpa using herr
      rw [pollGo_step_err fetch mW iv fuel2 w a s last hw herr0]
      simp
  | succ m ih =>
      intro fuel w a s last hfuel hok herr hwait
      have hw : w < mW := by
        have := hwait 0 (Nat.zero_le (m + 1))
        simpa using this
      obtain ⟨fuel2, rfl⟩ : ∃ k, fuel = k + 1 := ⟨fuel - 1, by omega⟩
      have h0 := hok 0 (Nat.succ_pos m)
      simp only [Nat.add_zero] at h0
      rw [pollGo_step_cont fetch mW iv fuel2 w a s last (snaps a) hw
        h0.1 h0.2]
      have hok2 : ∀ j, j < m →
          fetch (a + 1 + j) = FetchResult.ok (snaps (a + 1 + j)) ∧
          (snaps (a + 1 + j)).call_status ≠ some "ended" := by
        intro j hj
        have hidx : a + (j + 1) = a + 1 + j := by omega
        have := hok (j + 1) (by omega)
        rwa [hidx] at this
      have herr2 : fetch (a + 1 + m) = FetchResult.err := by
        have hidx : a + (m + 1) = a + 1 + m := by omega
        rwa [hidx] at herr
      have hwait2 : ∀ j, j ≤ m → (w + iv) + j * iv < mW := by
        intro j hj
        have := hwait (j + 1) (by omega)
        rw [Nat.succ_mul] at this
        omega
      rw [ih fuel2 (w + iv) (a + 1) (s + 1) (some (snaps a)) (by omega)
        hok2 herr2 hwait2]
      rcases Nat.eq_zero_or_pos m with hm | hm
      · subst hm
        simp
      · have h1 : a + 1 + m - 1 = a + (m + 1) - 1 := by omega
        have h2 : a + 1 + m + 1 = a + (m + 1) + 1 := by omega
        have h3 : s + 1 + m = s + (m + 1) := by omega
        simp only [if_neg (by omega : ¬ m = 0),
          if_neg (by omega : ¬ m + 1 = 0), h1, h2, h3]

/-- C3: if fetch attempt i + 1 raises after i successful non-"ended"
polls (while the waited-time guard still admits each attempt), the loop
stops with exactly i + 1 attempts and no further fetch.  If i = 0 (no
snapshot ever obtained), `main` aborts with no extraction, no persistence,
no downloads and no scrub; if i > 0, the run proceeds to extraction with
the last successfully obtained snapshot. -/
theorem poll_error_stops (env : MainEnv) (snaps : Nat → Snapshot)
    (i : Nat) (cid : String)
    (hiv : 0 < env.wait_interval)
    (hcreate : env.createResult = Except.ok cid)
    (hok : ∀ j, j < i → env.fetch j = FetchResult.ok (snaps j) ∧
      (snaps j).call_status ≠ some "ended")
    (herr : env.fetch i = FetchResult.err)
    (hwait : ∀ j, j ≤ i → j * env.wait_interval < env.max_wait_time) :
    (poll_call_status env.fetch env.max_wait_time
      env.wait_interval).attempts = i + 1 ∧
    (poll_call_status env.fetch env.max_wait_time
      env.wait_interval).exitKind = ExitKind.fetchError ∧
    (i = 0 → mainRun env =
      { aborted := some AbortStage.noCallResponse, pollAttempts := 1,
        jsonWritten := false, fields := none, recDownload := none,
        logDownload := none, loggedSummary := none,
        scrubAttempted := false, scrubSucceeded := none }) ∧
    (0 < i →
      (poll_call_status env.fetch env.max_wait_time
        env.wait_interval).returned = some (snaps (i - 1)) ∧
      (mainRun env).aborted = none ∧
      (mainRun env).fields =
        some (extractStep env.extractRaises (snaps (i - 1)))) := by
  have hok0 : ∀ j, j < i →
      env.fetch (0 + j) = FetchResult.ok (snaps (0 + j)) ∧
      (snaps (0 + j)).call_status ≠ some "ended" := by
    intro j hj
    simpa using hok j hj
  have herr0 : env.fetch (0 + i) = FetchResult.err := by simpa using herr
  have hwait0 : ∀ j, j ≤ i →
      0 + j * env.wait_interval < env.max_wait_time := by
    intro j hj
    simpa using hwait j hj
  have hile : i ≤ i * env.wait_interval := by
    calc i = i * 1 := (Nat.mul_one i).symm
    _ ≤ i * env.wait_interval := Nat.mul_le_mul_left i hiv
  have hfuel : i < env.max_wait_time + 1 := by
    have := hwait i (Nat.le_refl i)
    omega
  have hrun := pollGo_err_run snaps env.fetch env.max_wait_time
    env.wait_interval i (env.max_wait_time + 1) 0 0 0 none hfuel hok0
    herr0 hwait0
  have hpoll : poll_call_status env.fetch env.max_wait_time
      env.wait_interval =
      { returned := if i = 0 then none else some (snaps (i - 1)),
        attempts := i + 1, sleeps := i,
        exitKind := ExitKind.fetchError } := by
    simpa [poll_call_status] using hrun
  refine ⟨by rw [hpoll], by rw [hpoll], ?_, ?_⟩
  · intro h0
    subst h0
    simp [mainRun, hcreate, hpoll]
  · intro hpos
    have hne : ¬ i = 0 := by omega
    refine ⟨by rw [hpoll]; simp [hne], ?_, ?_⟩ <;>
      simp [mainRun, hcreate, hpoll, hne]

/-- Witness for C3 at a concrete input: the first fetch yields the
in-progress snapshot and the second raises, so the loop stops after two
attempts and the run extracts from the retained snapshot. -/
theorem poll_error_stops_witness :
    (poll_call_status envC3.fetch envC3.max_wait_time
      envC3.wait_interval).attempts = 2 ∧
    (poll_call_status envC3.fetch envC3.max_wait_time
      envC3.wait_interval).returned = some progressSnap ∧
    (mainRun envC3).aborted = none ∧
    (mainRun envC3).fields = some (extractStep false progressSnap) := by
  have h := poll_error_stops envC3 (fun _ => progressSnap) 1 "abc123"
    (by decide) rfl
    (by
      intro j hj
      have hj0 : j = 0 := by omega
      subst hj0
      exact ⟨rfl, by decide⟩)
    rfl
    (by
      intro j hj
      show j * 2 < 10
      omega)
  obtain ⟨h1, _h2, _h3, h4⟩ := h
  have h5 := h4 (by decide)
  exact ⟨h1, h5.1, h5.2.1, h5.2.2⟩

/-- C4: on a snapshot whose `call_cost` sub-object is absent, the derived
duration and cost are the "-" sentinel (the extraction is a total
function, so no exception arises), the summary and the two URLs are
extracted independently of `call_cost`, and only when the extraction step
as a whole raises do all fields become "Unavailable" together. -/
theorem extract_missing_call_cost (r : Snapshot) (h : r.call_cost = none) :
    (extractStep false r).duration = CostField.dash ∧
    (extractStep false r).cost = CostField.dash ∧
    (∀ c : Option CallCost,
      (extractStep false { r with call_cost := c }).summary =
        (extractStep false r).summary ∧
      (extractStep false { r with call_cost := c }).recording_url =
        (extractStep false r).recording_url ∧
      (extractStep false { r with call_cost := c }).log_url =
        (extractStep false r).log_url) ∧
    extractStep true r = allUnavailable := by
  refine ⟨?_, ?_, ?_, rfl⟩
  · simp [extractStep, extractFields, h]
  · simp [extractStep, extractFields, h]
  · intro c
    refine ⟨?_, ?_, ?_⟩ <;> simp [extractStep, extractFields]

/-- Witness for C4 at a concrete input: `progressSnap` has no
`call_cost`. -/
theorem extract_missing_call_cost_witness :
    (extractStep false progressSnap).duration = CostField.dash ∧
    (extractStep false progressSnap).cost = CostField.dash ∧
    extractStep true progressSnap = allUnavailable := by
  obtain ⟨h1, h2, _h3, h4⟩ := extract_missing_call_cost progressSnap rfl
  exact ⟨h1, h2, h4⟩

/-- Environment for the C5 witness: the extraction block raises. -/
def envC5 : MainEnv := { baseEnv with extractRaises := true }

/-- C5: when the extraction step raises, all five derived fields become
"Unavailable" together (never a mix), the run continues rather than
aborting, the logged summary is the "Unavailable" sentinel, and the scrub
gate is still evaluated. -/
theorem extraction_failure_all_unavailable (env : MainEnv) (cid : String)
    (r : Snapshot)
    (hcreate : env.createResult = Except.ok cid)
    (hpoll : (poll_call_status env.fetch env.max_wait_time
      env.wait_interval).returned = some r)
    (hraise : env.extractRaises = true) :
    (mainRun env).fields = some allUnavailable ∧
    (mainRun env).aborted = none ∧
    (mainRun env).loggedSummary = some "Unavailable" ∧
    (mainRun env).scrubAttempted = scrubFlag env.scrub_sensitive_data := by
  refine ⟨?_, ?_, ?_, ?_⟩ <;>
    simp [mainRun, hcreate, hpoll, hraise, extractStep, allUnavailable]

/-- Witness for C5 at a concrete input. -/
theorem extraction_failure_all_unavailable_witness :
    (mainRun envC5).fields = some allUnavailable ∧
    (mainRun envC5).aborted = none ∧
    (mainRun envC5).loggedSummary = some "Unavailable" ∧
    (mainRun envC5).scrubAttempted = scrubFlag "yes" :=
  extraction_failure_all_unavailable envC5 "abc123" endedSnap rfl rfl rfl

/-- C6: when the run reaches artifact persistence (extraction does not
raise), the outcome of the log download is unchanged by the recording
download failing in any way and vice versa, the JSON write is unchanged by
any download failure, and each download is the `download_file` call on its
own URL and its own failure flags only. -/
theorem downloads_independent (env : MainEnv) (cid : String) (r : Snapshot)
    (hcreate : env.createResult = Except.ok cid)
    (hpoll : (poll_call_status env.fetch env.max_wait_time
      env.wait_interval).returned = some r)
    (hnoraise : env.extractRaises = false) :
    ∀ b1 b2 b3 b4 : Bool,
      (mainRun { env with
        recNetFails := b1,
        recWriteFails := b2 }).logDownload = (mainRun env).logDownload ∧
      (mainRun { env with
        logNetFails := b3,
        logWriteFails := b4 }).recDownload = (mainRun env).recDownload ∧
      (mainRun { env with
        recNetFails := b1,
        recWriteFails := b2,
        logNetFails := b3,
        logWriteFails := b4 }).jsonWritten = (mainRun env).jsonWritten ∧
      (mainRun env).recDownload =
        some (download_file (some (extractFields r).recording_url)
          env.recNetFails env.recWriteFails) ∧
      (mainRun env).logDownload =
        some (download_file (some (extractFields r).log_url)
          env.logNetFails env.logWriteFails) := by
  intro b1 b2 b3 b4
  refine ⟨?_, ?_, ?_, ?_, ?_⟩ <;>
    simp [mainRun, hcreate, hpoll, hnoraise, extractStep]

/-- Witness for C6 at a concrete input: failing both recording-download
flags (resp. both log-download flags) leaves the other download and the
JSON write unchanged. -/
theorem downloads_independent_witness :
    (mainRun { baseEnv with
      recNetFails := true,
      recWriteFails := true }).logDownload =
      (mainRun baseEnv).logDownload ∧
    (mainRun { baseEnv with
      logNetFails := true,
      logWriteFails := true }).recDownload =
      (mainRun baseEnv).recDownload ∧
    (mainRun { baseEnv with
      recNetFails := true,
      recWriteFails := true,
      logNetFails := true,
      logWriteFails := true }).jsonWritten =
      (mainRun baseEnv).jsonWritten ∧
    (mainRun baseEnv).recDownload =
      some (download_file (some (extractFields endedSnap).recording_url)
        false false) ∧
    (mainRun baseEnv).logDownload =
      some (download_file (some (extractFields endedSnap).log_url)
        false false) :=
  downloads_independent baseEnv "abc123" endedSnap rfl rfl rfl
    true true true true

/-- C7: a call to `download_file` with a missing URL, an empty URL, or the
"-" sentinel is a pure warned no-op: no network request is attempted, no
destination file is created, and no error is raised or logged. -/
theorem download_invalid_noop (url : Option String) (nf wf : Bool)
    (h : url = none ∨ url = some "" ∨ url = some "-") :
    download_file url nf wf =
      { warnedInvalid := true, attemptedNet := false, fileWritten := false,
        loggedError := false } := by
  rcases h with h | h | h <;> subst h <;> rfl

/-- Witness for C7 at the three concrete invalid URLs. -/
theorem download_invalid_noop_witness :
    download_file none false false =
      { warnedInvalid := true, attemptedNet := false, fileWritten := false,
        loggedError := false } ∧
    download_file (some "") true true =
      { warnedInvalid := true, attemptedNet := false, fileWritten := false,
        loggedError := false } ∧
    download_file (some "-") true false =
      { warnedInvalid := true, attemptedNet := false, fileWritten := false,
        loggedError := false } :=
  ⟨download_invalid_noop none false false (Or.inl rfl),
   download_invalid_noop (some "") true true (Or.inr (Or.inl rfl)),
   download_invalid_noop (some "-") true false (Or.inr (Or.inr rfl))⟩

/-- Environment for the C8 witness: the create-call request fails. -/
def envC8 : MainEnv := { baseEnv with createResult := Except.error () }

/-- C8: when the create-call operation fails, the run stops at once with
no polling, no JSON write, no extraction, no downloads and no scrub
attempt, producing no outcome. -/
theorem create_failure_fatal (env : MainEnv)
    (hc : env.createResult = Except.error ()) :
    mainRun env =
      { aborted := some AbortStage.initiation, pollAttempts := 0,
        jsonWritten := false, fields := none, recDownload := none,
        logDownload := none, loggedSummary := none, scrubAttempted := false,
        scrubSucceeded := none } := by
  simp [mainRun, hc]

/-- Witness for C8 at a concrete input. -/
theorem create_failure_fatal_witness :
    mainRun envC8 =
      { aborted := some AbortStage.initiation, pollAttempts := 0,
        jsonWritten := false, fields := none, recDownload := none,
        logDownload := none, loggedSummary := none, scrubAttempted := false,
        scrubSucceeded := none } :=
  create_failure_fatal envC8 rfl

/-- Environment for the C9 witness: scrubbing is enabled and the scrub
update fails. -/
def envC9 : MainEnv := { baseEnv with scrubFails := true }

/-- C9: with the scrub flag enabled, a failing scrub update is non-fatal:
the run still completes, the scrub was attempted and its failure recorded,
the extracted summary is still logged, the JSON write outcome is
unchanged, and the derived fields and both download outcomes are exactly
those of the same run with a succeeding scrub. -/
theorem scrub_failure_nonfatal (env : MainEnv) (cid : String) (r : Snapshot)
    (hcreate : env.createResult = Except.ok cid)
    (hpoll : (poll_call_status env.fetch env.max_wait_time
      env.wait_interval).returned = some r)
    (hflag : scrubFlag env.scrub_sensitive_data = true)
    (hfail : env.scrubFails = true) :
    (mainRun env).aborted = none ∧
    (mainRun env).scrubAttempted = true ∧
    (mainRun env).scrubSucceeded = some false ∧
    (mainRun env).loggedSummary =
      some (extractStep env.extractRaises r).summary ∧
    (mainRun env).jsonWritten = !env.jsonWriteFails ∧
    (mainRun env).fields = (mainRun { env with scrubFails := false }).fields ∧
    (mainRun env).recDownload =
      (mainRun { env with scrubFails := false }).recDownload ∧
    (mainRun env).logDownload =
      (mainRun { env with scrubFails := false }).logDownload := by
  refine ⟨?_, ?_, ?_, ?_, ?_, ?_, ?_, ?_⟩ <;>
    simp [mainRun, hcreate, hpoll, hflag, hfail]

/-- Witness for C9 at a concrete input. -/
theorem scrub_failure_nonfatal_witness :
    (mainRun envC9).aborted = none ∧
    (mainRun envC9).scrubAttempted = true ∧
    (mainRun envC9).scrubSucceeded = some false ∧
    (mainRun envC9).loggedSummary =
      some (extractStep false endedSnap).summary ∧
    (mainRun envC9).fields =
      (mainRun { envC9 with scrubFails := false }).fields := by
  obtain ⟨h1, h2, h3, h4, _h5, h6, _h7, _h8⟩ :=
    scrub_failure_nonfatal envC9 "abc123" endedSnap rfl rfl (by decide) rfl
  exact ⟨h1, h2, h3, h4, h6⟩

/-- C10: in a run that reaches the scrub gate, the scrub is attempted if
and only if the configured value, stripped of surrounding whitespace and
lowercased, is exactly "yes", "true" or "1"; any other value, such as "on"
or "y", leaves the gate closed with no scrub request issued (the source
has no else-branch there, so nothing is emitted either). -/
theorem scrub_gate_iff (env : MainEnv) (cid : String) (r : Snapshot)
    (hcreate : env.createResult = Except.ok cid)
    (hpoll : (poll_call_status env.fetch env.max_wait_time
      env.wait_interval).returned = some r) :
    ((mainRun env).scrubAttempted = true ↔
      (pyLower (pyStrip env.scrub_sensitive_data) = "yes" ∨
       pyLower (pyStrip env.scrub_sensitive_data) = "true" ∨
       pyLower (pyStrip env.scrub_sensitive_data) = "1")) ∧
    (mainRun { env with scrub_sensitive_data := "on" }).scrubAttempted =
      false ∧
    (mainRun { env with scrub_sensitive_data := "y" }).scrubAttempted =
      false := by
  refine ⟨?_, ?_, ?_⟩
  · simp only [mainRun, hcreate, hpoll]
    simp [scrubFlag, Bool.or_eq_true, beq_iff_eq]
    tauto
  · simp [mainRun, hcreate, hpoll]
    decide
  · simp [mainRun, hcreate, hpoll]
    decide

/-- Witness for C10 at concrete inputs: "yes" opens the gate, "on" and "y"
leave it closed. -/
theorem scrub_gate_iff_witness :
    (mainRun baseEnv).scrubAttempted = true ∧
    (mainRun { baseEnv with scrub_sensitive_data := "on" }).scrubAttempted =
      false ∧
    (mainRun { baseEnv with scrub_sensitive_data := "y" }).scrubAttempted =
      false := by
  obtain ⟨h1, h2, h3⟩ := scrub_gate_iff baseEnv "abc123" endedSnap rfl rfl
  exact ⟨h1.mpr (Or.inl (by decide)), h2, h3⟩
